import Mathlib

/-!
Verification of the KaliDNS-Switcher configuration transition engine
(src/kalidns.py) against its natural-language specification.

The Python source is shallowly embedded: pure helpers become Lean
functions on `List Char` / `String`; filesystem- and subprocess-touching
procedures become functions over explicit state plus an outcome oracle
that decides how each external call behaves, returning the sequence of
externally visible events together with the control-flow outcome
(normal return versus an uncaught Python exception).

Python's `ipaddress.ip_address` (the standard library routine called by
`validate_ip`) is modelled faithfully from its documented/CPython
behaviour on strings: strict dotted-quad IPv4 (no leading zeros, each
octet at most 3 digits and at most 255), RFC-4291-style IPv6 with a
single `::` gap, an optional embedded IPv4 suffix, an optional nonempty
`%scope` suffix, rejection of `/`, and canonical re-printing (IPv4 as
minimal decimal dotted quad; IPv6 lowercased, zero-shortened groups and
the leftmost longest run of two or more zero groups compressed to `::`).
Unicode (non-ASCII) whitespace and digits are outside the modelled
fragment; all inputs of interest here are ASCII.
-/

namespace KaliDNS

/-! ## Python character and string primitives -/

/-- ASCII decimal digit test, as used by `str.isascii() and str.isdigit()`. -/
def pyIsDigit (c : Char) : Bool := 48 ≤ c.toNat && c.toNat ≤ 57

/-- Hexadecimal digit test, Python's `_HEX_DIGITS` superset check. -/
def pyIsHexDigit (c : Char) : Bool :=
  pyIsDigit c || (97 ≤ c.toNat && c.toNat ≤ 102) || (65 ≤ c.toNat && c.toNat ≤ 70)

/-- ASCII whitespace recognised by Python's `str.strip()` (restricted to ASCII). -/
def pyIsSpace (c : Char) : Bool :=
  c = ' ' || c = '\t' || c = '\n' || c = '\r' || c.toNat = 11 || c.toNat = 12

/-- Python `str.strip()` on a character list. -/
def pyStrip (l : List Char) : List Char :=
  ((l.dropWhile pyIsSpace).reverse.dropWhile pyIsSpace).reverse

/-- Python `str.split(sep)` for a single-character separator: the result is
always nonempty and splitting the empty string yields one empty field. -/
def splitOnChar (sep : Char) : List Char → List (List Char)
  | [] => [[]]
  | c :: rest =>
    match splitOnChar sep rest with
    | [] => if c = sep then [[], []] else [[c]]
    | h :: t => if c = sep then [] :: h :: t else (c :: h) :: t

/-- Join character lists with a single-character separator (inverse of
`splitOnChar`, and Python's `sep.join`). -/
def joinWith (sep : Char) : List (List Char) → List Char
  | [] => []
  | [x] => x
  | x :: y :: ys => x ++ sep :: joinWith sep (y :: ys)

/-- Python `str.partition('%')` restricted to what `ipaddress` needs:
the text before the first `%` and, if a `%` occurs, the text after it. -/
def partitionPercent : List Char → List Char × Option (List Char)
  | [] => ([], none)
  | c :: rest =>
    if c = '%' then ([], some rest)
    else
      let p := partitionPercent rest
      (c :: p.1, p.2)

/-! ## Decimal and hexadecimal printing (Python `str(int)` and `'%x' %`) -/

/-- The character for a single digit value (decimal or lowercase hex). -/
def digitChar (n : Nat) : Char :=
  if n < 10 then Char.ofNat (48 + n) else Char.ofNat (87 + n)

/-- Accumulating decimal printer (well-founded form, used in proofs). -/
def toDecAux (n : Nat) (acc : List Char) : List Char :=
  if h : n = 0 then acc
  else toDecAux (n / 10) (digitChar (n % 10) :: acc)
termination_by n
decreasing_by exact Nat.div_lt_self (Nat.pos_of_ne_zero h) (by omega)

/-- Fuelled decimal printer (structural, so concrete inputs reduce in the
kernel); agrees with `toDecAux` whenever the fuel is at least the argument. -/
def toDecFuel : Nat → Nat → List Char → List Char
  | 0, _, acc => acc
  | fuel + 1, n, acc =>
    if n = 0 then acc else toDecFuel fuel (n / 10) (digitChar (n % 10) :: acc)

/-- Python `str(n)` for a natural number. -/
def natToDec (n : Nat) : List Char := if n = 0 then ['0'] else toDecFuel n n []

/-- Accumulating lowercase hexadecimal printer (well-founded form). -/
def toHexAux (n : Nat) (acc : List Char) : List Char :=
  if h : n = 0 then acc
  else toHexAux (n / 16) (digitChar (n % 16) :: acc)
termination_by n
decreasing_by exact Nat.div_lt_self (Nat.pos_of_ne_zero h) (by omega)

/-- Fuelled lowercase hexadecimal printer. -/
def toHexFuel : Nat → Nat → List Char → List Char
  | 0, _, acc => acc
  | fuel + 1, n, acc =>
    if n = 0 then acc else toHexFuel fuel (n / 16) (digitChar (n % 16) :: acc)

/-- Python `'%x' % n`: minimal lowercase hexadecimal. -/
def natToHex (n : Nat) : List Char := if n = 0 then ['0'] else toHexFuel n n []

/-- Value of a decimal digit string, Python `int(s, 10)` on all-digit input. -/
def decVal (l : List Char) : Nat := l.foldl (fun a c => 10 * a + (c.toNat - 48)) 0

/-- Value of one hexadecimal digit character. -/
def hexVal (c : Char) : Nat :=
  if c.toNat ≤ 57 then c.toNat - 48
  else if c.toNat ≤ 70 then c.toNat - 55
  else c.toNat - 87

/-- Value of a hexadecimal digit string, Python `int(s, 16)` on hex input. -/
def hexValList (l : List Char) : Nat := l.foldl (fun a c => 16 * a + hexVal c) 0

/-! ## Model of `ipaddress.ip_address` on strings -/

/-- One dotted-quad octet, CPython `IPv4Address._parse_octet`: nonempty, all
ASCII digits, at most 3 characters, no leading zero unless exactly "0",
value at most 255. -/
def parseOctet (l : List Char) : Option Nat :=
  if l.isEmpty then none
  else if !(l.all pyIsDigit) then none
  else if l.length > 3 then none
  else if l ≠ ['0'] ∧ l.head? = some '0' then none
  else if decVal l > 255 then none
  else some (decVal l)

/-- CPython `IPv4Address` string parsing: reject `/`, split on `.`, require
exactly four octets, parse each strictly. -/
def parseIPv4 (l : List Char) : Option (List Nat) :=
  if l.contains '/' then none
  else
    let parts := splitOnChar '.' l
    if parts.length ≠ 4 then none
    else parts.mapM parseOctet

/-- The 32-bit integer of a parsed dotted quad. -/
def ipv4ToInt (octs : List Nat) : Nat := octs.foldl (fun a o => 256 * a + o) 0

/-- One IPv6 group, CPython `IPv6Address._parse_hextet`: all hex digits,
at most 4 characters, nonempty (`int('', 16)` raises). -/
def parseHextet (l : List Char) : Option Nat :=
  if !(l.all pyIsHexDigit) then none
  else if l.length > 4 then none
  else if l.isEmpty then none
  else some (hexValList l)

/-- Fold a run of groups into the accumulated integer
(`ip_int = (ip_int << 16) | hextet`). -/
def foldHextets (ps : List (List Char)) (init : Nat) : Option Nat :=
  ps.foldlM (fun a p => (parseHextet p).map (fun h => 65536 * a + h)) init

/-- Locate the single `::` gap: scan interior fields for empties.
Returns `none` on two interior empties, `some none` when there is no gap,
and `some (some i)` for a gap at interior index `i`. -/
def findSkip (parts : List (List Char)) : Option (Option Nat) :=
  let empties := (List.range parts.length).filter
    (fun i => decide (1 ≤ i) && decide (i + 1 < parts.length) && (parts.getD i []).isEmpty)
  match empties with
  | [] => some none
  | [i] => some (some i)
  | _ => none

/-- CPython `IPv6Address._ip_int_from_string` after colon-splitting and the
IPv4-suffix rewrite: structural checks around the `::` gap, then parse the
high-side groups, shift over the skipped zero groups, parse the low side. -/
def assembleIPv6 (parts : List (List Char)) : Option Nat :=
  match findSkip parts with
  | none => none
  | some none =>
    if parts.length ≠ 8 then none
    else if parts.head? = some [] then none
    else if parts.getLast? = some [] then none
    else foldHextets parts 0
  | some (some skip) =>
    let n := parts.length
    let hi1 := skip
    let lo1 := n - skip - 1
    let step1 : Option (Nat × Nat) :=
      if parts.head? = some [] then
        (if hi1 - 1 = 0 then some (hi1 - 1, lo1) else none)
      else some (hi1, lo1)
    match step1 with
    | none => none
    | some (hi2, lo2) =>
      let step2 : Option (Nat × Nat) :=
        if parts.getLast? = some [] then
          (if lo2 - 1 = 0 then some (hi2, lo2 - 1) else none)
        else some (hi2, lo2)
      match step2 with
      | none => none
      | some (hi, lo) =>
        if 8 ≤ hi + lo then none
        else
          match foldHextets (parts.take hi) 0 with
          | none => none
          | some a => foldHextets (parts.drop (n - lo)) (a * 65536 ^ (8 - (hi + lo)))

/-- CPython IPv6 string parsing without the scope suffix: nonempty, at least
three colon-separated fields, optional strict IPv4 suffix rewritten into two
hex groups, at most nine fields, then `assembleIPv6`. -/
def parseIPv6NoScope (l : List Char) : Option Nat :=
  if l.isEmpty then none
  else
    let parts := splitOnChar ':' l
    if parts.length < 3 then none
    else
      let parts2 : Option (List (List Char)) :=
        if (parts.getLastD []).contains '.' then
          match parseIPv4 (parts.getLastD []) with
          | none => none
          | some octs =>
            let v4 := ipv4ToInt octs
            some (parts.dropLast ++ [natToHex (v4 / 65536), natToHex (v4 % 65536)])
        else some parts
      match parts2 with
      | none => none
      | some ps => if ps.length > 9 then none else assembleIPv6 ps

/-- CPython `IPv6Address` on strings: reject `/`, split off an optional
nonempty `%scope` (which must not itself contain `%`), parse the address. -/
def parseIPv6 (l : List Char) : Option (Nat × Option (List Char)) :=
  if l.contains '/' then none
  else
    match partitionPercent l with
    | (addr, none) => (parseIPv6NoScope addr).map (fun n => (n, none))
    | (addr, some scope) =>
      if scope.isEmpty || scope.contains '%' then none
      else (parseIPv6NoScope addr).map (fun n => (n, some scope))

/-- A parsed address: four IPv4 octets, or a 128-bit IPv6 value with an
optional scope. -/
inductive IPAddr where
  | v4 (octs : List Nat)
  | v6 (value : Nat) (scope : Option (List Char))
deriving DecidableEq, Repr

/-- Python `ipaddress.ip_address` on a string: try IPv4 first, then IPv6. -/
def ip_address (l : List Char) : Option IPAddr :=
  match parseIPv4 l with
  | some o => some (.v4 o)
  | none => (parseIPv6 l).map (fun p => .v6 p.1 p.2)

/-- The eight 16-bit groups of an IPv6 value, most significant first,
each printed in minimal lowercase hex. -/
def hextetsOf (n : Nat) : List (List Char) :=
  (List.range 8).map (fun i => natToHex (n / 65536 ^ (7 - i) % 65536))

/-- Leftmost longest run of `"0"` groups, CPython `_compress_hextets`' scan:
returns `(start, length)`, with length 0 when there is no zero group. -/
def bestZeroRun (hx : List (List Char)) : Nat × Nat :=
  let st := hx.foldl
    (fun (st : Nat × Nat × Nat × Nat × Nat) h =>
      let idx := st.1
      let curStart := st.2.1
      let curLen := st.2.2.1
      let bestStart := st.2.2.2.1
      let bestLen := st.2.2.2.2
      if h = ['0'] then
        let cs := if curLen = 0 then idx else curStart
        let cl := curLen + 1
        if cl > bestLen then (idx + 1, cs, cl, cs, cl)
        else (idx + 1, cs, cl, bestStart, bestLen)
      else (idx + 1, 0, 0, bestStart, bestLen))
    (0, 0, 0, 0, 0)
  (st.2.2.2.1, st.2.2.2.2)

/-- CPython `_compress_hextets`: replace the leftmost longest run of two or
more zero groups by an empty field (adding boundary empties so the join
produces `::`). -/
def compressHextets (hx : List (List Char)) : List (List Char) :=
  let r := bestZeroRun hx
  if r.2 > 1 then
    let hx1 := if r.1 + r.2 = hx.length then hx ++ [[]] else hx
    let hx2 := hx1.take r.1 ++ [[]] ++ hx1.drop (r.1 + r.2)
    if r.1 = 0 then [] :: hx2 else hx2
  else hx

/-- Canonical IPv6 text without scope: compressed groups joined by colons. -/
def ipv6StrNoScope (n : Nat) : List Char := joinWith ':' (compressHextets (hextetsOf n))

/-- Python `str()` of a parsed address. -/
def ipAddrStr : IPAddr → List Char
  | .v4 o => joinWith '.' (o.map natToDec)
  | .v6 n scope =>
    ipv6StrNoScope n ++ (match scope with | none => [] | some s => '%' :: s)

/-- The source's `validate_ip` (src/kalidns.py line 115): strip the input,
parse it with `ipaddress.ip_address`, and return `str` of the result, or
`None` on a parse failure. -/
def validate_ip (s : String) : Option String :=
  (ip_address (pyStrip s.data)).map (fun a => String.mk (ipAddrStr a))

/-- Python `s.strip()` as a `String` operation. -/
def pyStripS (s : String) : String := String.mk (pyStrip s.data)

/-! ## Fixed configuration of the tool (src/kalidns.py lines 41-74) -/

def RESOLV_CONF : String := "/etc/resolv.conf"

def SYSTEMD_RESOLVED_CONF : String := "/etc/systemd/resolved.conf"

def DNSCRYPT_PROXY_CONF : String := "/etc/dnscrypt-proxy/dnscrypt-proxy.toml"

/-- A single-quote character as a string (used when building the TOML text). -/
def sq : String := String.mk [Char.ofNat 39]

/-- One entry of the compiled-in `DOH_PROVIDERS` table. -/
structure DohProvider where
  server_name : String
  stamp : String
  listen : String
deriving DecidableEq, Repr

/-- The `DOH_PROVIDERS` table (lines 61-72) as a lookup. -/
def dohProvider? : String → Option DohProvider
  | "Cloudflare" => some ⟨"cloudflare-dns.com",
      "sdns://AgcAAAAAAAAABzEuMC4wLjEAEmRucy5jbG91ZGZsYXJlLmNvbQovZG5zLXF1ZXJ5",
      "127.0.0.1:53"⟩
  | "Google" => some ⟨"dns.google",
      "sdns://AgUAAAAAAAAABzguOC44LjigHvYkz_9ea9O63fP92_3qVlRn43cpncfuZnUWbzAMwbkgRE69Z7uD-IB7OSHpOKyReLiCvVCq2xEjHwRM9fCN984KZG5zLmdvb2dsZQovZG5zLXF1ZXJ5",
      "127.0.0.1:53"⟩
  | _ => none

/-- The provider keys of `DOH_PROVIDERS`, in table order. -/
def DOH_PROVIDERS_keys : List String := ["Cloudflare", "Google"]

/-- The `setup_dot` provider dispatch (lines 455-463): an `if`/`elif` chain
with no final `else`, so an unknown key leaves `dns_ip`/`fallback` unbound
(`none` here) and the f-string at line 465 then raises `NameError`. -/
def dotParams? : String → Option (String × String)
  | "Cloudflare" => some ("1.1.1.1 1.0.0.1 2606:4700:4700::1111 2606:4700:4700::1001", "8.8.8.8")
  | "Google" => some ("8.8.8.8 8.8.4.4 2001:4860:4860::8888 2001:4860:4860::8844", "1.1.1.1")
  | "Quad9" => some ("9.9.9.9 149.112.112.112 2620:fe::fe 2620:fe::9", "1.1.1.1")
  | _ => none

/-! ## File contents written by the transitions -/

/-- Python `repr` of a list of strings, as interpolated into log messages. -/
def pyReprList (xs : List String) : String :=
  "[" ++ String.intercalate ", " (xs.map (fun s => sq ++ s ++ sq)) ++ "]"

/-- The two comment lines at the head of the Standard-mode resolver file
(line 437); `now` is `str(datetime.datetime.now())` at the moment of the
transition. -/
def setDnsHeader (provider now : String) : String :=
  "# Generated by KaliDNS Tool - " ++ provider ++ "\n# Updated at: " ++ now ++ "\n"

/-- The nameserver lines appended after the header (line 438). -/
def nsBody (ips : List String) : String :=
  ips.foldl (fun c ns => c ++ "nameserver " ++ ns ++ "\n") ""

/-- The full Standard-mode resolver file content built by `set_dns`
(lines 437-438). -/
def setDnsContent (provider now : String) (ips : List String) : String :=
  ips.foldl (fun c ns => c ++ "nameserver " ++ ns ++ "\n") (setDnsHeader provider now)

/-- The resolver file content written by `setup_dot` (line 480): a fixed
string, independent of run, provider and time. -/
def dotResolvContent : String :=
  "# Generated by KaliDNS Tool - DoT SECURE MODE\nnameserver 127.0.0.53\noptions edns0 trust-ad\n"

/-- The resolver file content written by `setup_doh` (line 575): fixed for a
given provider. -/
def dohResolvContent (provider : String) : String :=
  "# Generated by KaliDNS Tool - DoH MODE (" ++ provider ++ ")\nnameserver 127.0.0.1\n"

/-- The `systemd-resolved` configuration written by `setup_dot` (line 465). -/
def dotConfigContent (dns_ip fallback : String) : String :=
  "[Resolve]\nDNS=" ++ dns_ip ++ "\nFallbackDNS=" ++ fallback ++
    "\nDomains=~.\nDNSOverTLS=yes\nDNSSEC=allow-downgrade\n"

/-- The `dnscrypt-proxy` TOML written by `setup_doh` (lines 526-551). -/
def dohConfigContent (prov : DohProvider) (provider : String) : String :=
  "# Generated by KaliDNS Tool - DoH Mode (" ++ provider ++ ")\n" ++
  "listen_addresses = [" ++ sq ++ prov.listen ++ sq ++ "]\n" ++
  "max_clients = 250\nipv4_servers = true\nipv6_servers = false\n" ++
  "dnscrypt_servers = false\ndoh_servers = true\nrequire_dnssec = false\n" ++
  "require_nolog = true\nrequire_nofilter = true\nforce_tcp = false\n" ++
  "timeout = 5000\nkeepalive = 30\nlog_level = 2\nuse_syslog = false\n" ++
  "cache = true\ncache_size = 4096\ncache_min_ttl = 2400\ncache_max_ttl = 86400\n" ++
  "cache_neg_min_ttl = 60\ncache_neg_max_ttl = 600\n\n[static]\n[static." ++ sq ++
  prov.server_name ++ sq ++ "]\nstamp = " ++ sq ++ prov.stamp ++ sq ++ "\n"

/-! ## AtomicFileWriter (`atomic_write`, lines 169-183) -/

/-- Log entries appended by `log_action` (timestamps omitted from the model). -/
structure LogEntry where
  action : String
  details : String
deriving DecidableEq, Repr

/-- The OS calls inside `atomic_write` that can raise. -/
inductive WriteStep where
  | openTemp
  | writeTemp
  | fsync
  | renameStep
deriving DecidableEq, Repr

/-- The two on-disk slots `atomic_write` touches: the target path and its
sibling `.tmp` path. `none` means the file does not exist. -/
structure WriteFS where
  target : Option String
  temp : Option String
deriving DecidableEq, Repr

/-- Printable name of the failing step, standing in for Python's `str(e)`. -/
def writeStepMsg : WriteStep → String
  | .openTemp => "open failed"
  | .writeTemp => "write failed"
  | .fsync => "fsync failed"
  | .renameStep => "rename failed"

/-- The source's `atomic_write` over an explicit state and a failure oracle
naming the step (if any) at which the underlying OS call raises. The `with
open(temp, 'w')` creates/truncates the temp file; a failed write leaves it
with partial content (modelled as empty); `os.rename` atomically replaces
the target. The `except` handler prints, appends an ERROR log entry, and
removes the temp file if it exists (`os.remove` is modelled as succeeding);
it then returns `False`. -/
def atomic_write (path : String) (fs : WriteFS) (content : String)
    (failAt : Option WriteStep) : Bool × WriteFS × List LogEntry :=
  let fail := fun (fsAt : WriteFS) (step : WriteStep) =>
    (false, WriteFS.mk fsAt.target none,
      [LogEntry.mk "ERROR" ("Atomic write failed for " ++ path ++ ": " ++ writeStepMsg step)])
  if failAt = some WriteStep.openTemp then
    fail fs WriteStep.openTemp
  else if failAt = some WriteStep.writeTemp then
    fail (WriteFS.mk fs.target (some "")) WriteStep.writeTemp
  else if failAt = some WriteStep.fsync then
    fail (WriteFS.mk fs.target (some content)) WriteStep.fsync
  else if failAt = some WriteStep.renameStep then
    fail (WriteFS.mk fs.target (some content)) WriteStep.renameStep
  else
    (true, WriteFS.mk (some content) none, [])

/-! ## ServiceSequencer (`safe_restart_service`, lines 155-167) -/

/-- Outcome of one `subprocess.run` invocation of `systemctl`. -/
inductive ProcOutcome where
  | ok
  | nonzeroExit
  | timedOut
deriving DecidableEq, Repr

/-- The failure cause as distinguishable from the function's printed message:
`startFailed` for `CalledProcessError`, `restartTimedOut` for
`TimeoutExpired` (from either the stop call or the start call). -/
inductive RestartCause where
  | started
  | startFailed
  | restartTimedOut
deriving DecidableEq, Repr

def stopTimeoutSeconds : Nat := 10

def settleSeconds : Nat := 1

def startTimeoutSeconds : Nat := 15

/-- The source's `safe_restart_service`: `systemctl stop` runs without
`check=True`, so a nonzero stop exit does not raise and execution proceeds;
but `TimeoutExpired` from the stop call propagates to the shared handler.
After a 1 second settle, `systemctl start` runs with `check=True`: a nonzero
exit raises `CalledProcessError` (caught, prints the start-failure message),
a timeout raises `TimeoutExpired` (caught, prints the timeout message). The
returned boolean is paired with the cause named by the printed message. -/
def safe_restart_service (stop start : ProcOutcome) : Bool × RestartCause :=
  if stop = ProcOutcome.timedOut then (false, RestartCause.restartTimedOut)
  else
    match start with
    | ProcOutcome.ok => (true, RestartCause.started)
    | ProcOutcome.nonzeroExit => (false, RestartCause.startFailed)
    | ProcOutcome.timedOut => (false, RestartCause.restartTimedOut)

/-! ## VerificationProbe (`get_current_dns` / `verify_dns_change`,
lines 187-215) -/

/-- State of the resolver file as seen by `get_current_dns`: readable with
these lines, absent (`FileNotFoundError`), or unreadable with the exception
rendered as `msg`. -/
inductive FileRead where
  | lines (ls : List String)
  | missing
  | unreadable (msg : String)
deriving DecidableEq, Repr

/-- Python `str.split()` with no separator: split on whitespace runs,
dropping empty fields (accumulator-based scan). -/
def pySplitWsAux : List Char → List Char → List (List Char)
  | [], cur => if cur.isEmpty then [] else [cur.reverse]
  | c :: rest, cur =>
    if pyIsSpace c then
      if cur.isEmpty then pySplitWsAux rest []
      else cur.reverse :: pySplitWsAux rest []
    else pySplitWsAux rest (c :: cur)

def pySplitWs (l : List Char) : List (List Char) := pySplitWsAux l []

/-- The body of the `for line in f` loop (lines 191-195): lines whose text
starts with `nameserver` and that have a second whitespace-separated field
contribute that field. -/
def nameserverEntry? (line : String) : Option String :=
  if List.isPrefixOf ("nameserver".data) line.data then
    match pySplitWs line.data with
    | _ :: second :: _ => some (String.mk second)
    | _ => none
  else none

def emptySentinel : String := "(Kosong / Tidak ada nameserver)"

def missingSentinel : String := "File belum ada (Akan dibuat otomatis)"

/-- The source's `get_current_dns`: collect nameserver fields in file order;
if none were found return the one-element empty-file sentinel; on
`FileNotFoundError` or any other exception return a one-element
descriptive list. -/
def get_current_dns (f : FileRead) : List String :=
  match f with
  | .lines ls =>
    let dns := ls.filterMap nameserverEntry?
    if dns.isEmpty then [emptySentinel] else dns
  | .missing => [missingSentinel]
  | .unreadable msg => ["Error: " ++ msg]

/-- The source's `verify_dns_change` (minus the 1 s settle sleep, which has
no observable effect in the model): re-read the resolver file and check that
every expected address occurs among the observed ones; on mismatch log both
lists and report failure. -/
def verify_dns_change (expected : List String) (f : FileRead) : Bool × List LogEntry :=
  let current := get_current_dns f
  if expected.all (fun ip => current.contains ip) then (true, [])
  else
    (false, [LogEntry.mk "VERIFY_FAIL"
      ("Expected " ++ pyReprList expected ++ ", got " ++ pyReprList current)])

/-! ## ModeStateMachine: event traces of the three transitions -/

/-- The three configuration files the engine tracks. -/
inductive CfgPath where
  | resolvConf
  | systemdResolvedConf
  | dnscryptProxyConf
deriving DecidableEq, Repr

/-- Externally visible events of a transition procedure, in program order. -/
inductive Ev where
  | logAction (action : String) (details : String)
  | unlockResolv
  | lockResolv
  | backupInvoked (path : CfgPath)
  | atomicWriteCall (path : CfgPath) (content : String) (ok : Bool)
  | copyBackup (src : String) (dst : CfgPath) (ok : Bool)
  | restartService (name : String) (ok : Bool)
  | systemctl (verb : String) (name : String)
  | flushCaches
  | verifyCall (ok : Bool)
  | connectivityTest
  | makeDirs (path : String)
deriving DecidableEq, Repr

/-- Control-flow outcome of a procedure: normal return, or an uncaught
Python exception. -/
inductive PyOutcome where
  | normal
  | raisedNameError
  | raisedOSError
deriving DecidableEq, Repr

/-- How each external call behaves during a transition. `latestResolvedBackup`
is the result of `_find_latest_backup(SYSTEMD_RESOLVED_CONF)`, whose `None`
covers both an unreadable directory (its `except` returns `None`) and the
absence of matching backups. `aptUpdateOk`/`aptInstallOk` being false covers
both the timeout and the generic-exception arms, all of which return. -/
structure Oracle where
  resolvedConfExists : Bool
  latestResolvedBackup : Option String
  restoreCopyOk : Bool
  restoreRestartOk : Bool
  writeResolvedOk : Bool
  restartResolvedOk : Bool
  writeResolvOk : Bool
  writeDnscryptOk : Bool
  restartDnscryptOk : Bool
  verifyOk : Bool
  dnscryptInstalled : Bool
  installConfirmed : Bool
  aptUpdateOk : Bool
  aptInstallOk : Bool
  dnscryptConfDirExists : Bool
deriving DecidableEq, Repr

/-- The source's `restore_systemd_config_silent` (lines 599-603): look up the
latest backup of the resolved-service config (lookup errors already folded
into `None`); if one exists, `shutil.copy2` it back — this call is NOT
wrapped in try/except, so a copy failure raises out of the function — then
best-effort restart the service (its failures only flip the returned bool,
which is ignored). -/
def restore_systemd_config_silent (o : Oracle) : List Ev × PyOutcome :=
  match o.latestResolvedBackup with
  | none => ([], .normal)
  | some b =>
    if o.restoreCopyOk then
      ([Ev.copyBackup b CfgPath.systemdResolvedConf true,
        Ev.restartService "systemd-resolved" o.restoreRestartOk], .normal)
    else
      ([Ev.copyBackup b CfgPath.systemdResolvedConf false], .raisedOSError)

/-- The source's `set_dns` (lines 419-444) as an event trace. -/
def set_dns (nameservers : List String) (provider now : String) (o : Oracle) :
    List Ev × PyOutcome :=
  match nameservers.filterMap validate_ip with
  | [] => ([], .normal)
  | v :: vs =>
    let valid_ips := v :: vs
    let ev0 := [Ev.logAction "SET_DNS"
      ("Provider: " ++ provider ++ ", IPs: " ++ pyReprList valid_ips)]
    let r := restore_systemd_config_silent o
    match r.2 with
    | PyOutcome.normal =>
      let content := setDnsContent provider now valid_ips
      let evs := ev0 ++ r.1 ++ [Ev.unlockResolv, Ev.backupInvoked CfgPath.resolvConf,
        Ev.atomicWriteCall CfgPath.resolvConf content o.writeResolvOk]
      if o.writeResolvOk then
        (evs ++ [Ev.lockResolv, Ev.flushCaches, Ev.verifyCall o.verifyOk] ++
          (if o.verifyOk then [Ev.connectivityTest] else []), .normal)
      else (evs, .normal)
    | e => (ev0 ++ r.1, e)

/-- The source's `setup_dot` (lines 446-486) as an event trace. -/
def setup_dot (provider : String) (o : Oracle) : List Ev × PyOutcome :=
  let ev0 := [Ev.logAction "SETUP_DOT" ("Provider: " ++ provider)]
  if !o.resolvedConfExists then (ev0, .normal)
  else
    match dotParams? provider with
    | none => (ev0, .raisedNameError)
    | some p =>
      let cfg := dotConfigContent p.1 p.2
      let evs1 := ev0 ++ [Ev.backupInvoked CfgPath.systemdResolvedConf,
        Ev.atomicWriteCall CfgPath.systemdResolvedConf cfg o.writeResolvedOk]
      if !o.writeResolvedOk then (evs1, .normal)
      else
        let evs2 := evs1 ++ [Ev.systemctl "enable" "systemd-resolved",
          Ev.restartService "systemd-resolved" o.restartResolvedOk]
        if !o.restartResolvedOk then (evs2, .normal)
        else
          let evs3 := evs2 ++ [Ev.unlockResolv,
            Ev.atomicWriteCall CfgPath.resolvConf dotResolvContent o.writeResolvOk]
          if o.writeResolvOk then
            (evs3 ++ [Ev.lockResolv, Ev.flushCaches, Ev.connectivityTest], .normal)
          else (evs3, .normal)

/-- The source's `setup_doh` (lines 488-580) as an event trace. The
installation sub-flow (lines 498-521) performs no config-file operations and
either proceeds or returns normally. -/
def setup_doh (provider : String) (o : Oracle) : List Ev × PyOutcome :=
  let ev0 := [Ev.logAction "SETUP_DOH" ("Provider: " ++ provider)]
  if !(DOH_PROVIDERS_keys.contains provider) then (ev0, .normal)
  else
    let proceed : Bool := o.dnscryptInstalled ||
      (o.installConfirmed && o.aptUpdateOk && o.aptInstallOk)
    if !proceed then (ev0, .normal)
    else
      match dohProvider? provider with
      | none => (ev0, .raisedNameError)
      | some prov =>
        let cfg := dohConfigContent prov provider
        let evs1 := ev0 ++
          (if !o.dnscryptConfDirExists then [Ev.makeDirs "/etc/dnscrypt-proxy"] else []) ++
          [Ev.backupInvoked CfgPath.dnscryptProxyConf,
           Ev.atomicWriteCall CfgPath.dnscryptProxyConf cfg o.writeDnscryptOk]
        if !o.writeDnscryptOk then (evs1, .normal)
        else
          let evs2 := evs1 ++ [Ev.systemctl "stop" "systemd-resolved",
            Ev.systemctl "disable" "systemd-resolved",
            Ev.restartService "dnscrypt-proxy" o.restartDnscryptOk]
          if !o.restartDnscryptOk then (evs2, .normal)
          else
            let evs3 := evs2 ++ [Ev.unlockResolv,
              Ev.atomicWriteCall CfgPath.resolvConf (dohResolvContent provider) o.writeResolvOk]
            if o.writeResolvOk then
              (evs3 ++ [Ev.lockResolv, Ev.flushCaches, Ev.connectivityTest], .normal)
            else (evs3, .normal)

/-! ## Trace predicates -/

/-- Is this event an `atomic_write` invocation on the resolver file? -/
def isWriteResolv : Ev → Bool
  | Ev.atomicWriteCall CfgPath.resolvConf _ _ => true
  | _ => false

/-- Is this event a successful `atomic_write` on the resolver file? -/
def isSuccessWriteResolv : Ev → Bool
  | Ev.atomicWriteCall CfgPath.resolvConf _ ok => ok
  | _ => false

/-- Is this event a `backup_file` invocation on the resolver file? -/
def isBackupResolv : Ev → Bool
  | Ev.backupInvoked CfgPath.resolvConf => true
  | _ => false

/-- Is this event an `atomic_write` invocation on the resolved-service config? -/
def isWriteResolved : Ev → Bool
  | Ev.atomicWriteCall CfgPath.systemdResolvedConf _ _ => true
  | _ => false

/-- Is this event a `backup_file` invocation on the resolved-service config? -/
def isBackupResolved : Ev → Bool
  | Ev.backupInvoked CfgPath.systemdResolvedConf => true
  | _ => false

/-- Is this event an `atomic_write` invocation on the dnscrypt-proxy config? -/
def isWriteDnscrypt : Ev → Bool
  | Ev.atomicWriteCall CfgPath.dnscryptProxyConf _ _ => true
  | _ => false

/-- Is this event a `backup_file` invocation on the dnscrypt-proxy config? -/
def isBackupDnscrypt : Ev → Bool
  | Ev.backupInvoked CfgPath.dnscryptProxyConf => true
  | _ => false

def isUnlock : Ev → Bool
  | Ev.unlockResolv => true
  | _ => false

def isLock : Ev → Bool
  | Ev.lockResolv => true
  | _ => false

/-- Does this event create, modify or delete a config file? -/
def isFileMutation : Ev → Bool
  | Ev.atomicWriteCall _ _ _ => true
  | Ev.copyBackup _ _ _ => true
  | Ev.backupInvoked _ => true
  | Ev.makeDirs _ => true
  | _ => false

/-- Scanning left to right, no event satisfying `q` occurs before the first
event satisfying `p`; in particular every `q`-event is preceded by some
`p`-event. -/
def guardedBy (p q : Ev → Bool) : List Ev → Bool
  | [] => true
  | e :: rest => if q e then false else if p e then true else guardedBy p q rest

/-- The contents handed to `atomic_write` for the resolver file, in order. -/
def resolvWriteContents (evs : List Ev) : List String :=
  evs.filterMap (fun e => match e with
    | Ev.atomicWriteCall CfgPath.resolvConf c _ => some c
    | _ => none)

/-- An oracle in which every external call succeeds (and the systemd-resolved
config exists, dnscrypt-proxy is installed, no stale backups are present). -/
def oracleAllOk : Oracle :=
  ⟨true, none, true, true, true, true, true, true, true, true, true, true, true, true, true⟩

/-- An oracle in which a backup of the resolved-service config exists and the
restore copy fails; everything else succeeds. -/
def oracleCopyFail : Oracle :=
  ⟨true, some "/etc/systemd/resolved.conf.backup_20260101_000000", false, true,
   true, true, true, true, true, true, true, true, true, true, true⟩

/-! ## Helper lemmas: characters and digit printers -/

theorem toDecAux_zero (acc : List Char) : toDecAux 0 acc = acc := by
  simp [toDecAux]

theorem toDecAux_pos (n : Nat) (acc : List Char) (h : n ≠ 0) :
    toDecAux n acc = toDecAux (n / 10) (digitChar (n % 10) :: acc) := by
  rw [toDecAux]; simp [h]

theorem toHexAux_zero (acc : List Char) : toHexAux 0 acc = acc := by
  simp [toHexAux]

theorem toHexAux_pos (n : Nat) (acc : List Char) (h : n ≠ 0) :
    toHexAux n acc = toHexAux (n / 16) (digitChar (n % 16) :: acc) := by
  rw [toHexAux]; simp [h]

theorem toDecFuel_eq_aux : ∀ (fuel n : Nat) (acc : List Char), n ≤ fuel →
    toDecFuel fuel n acc = toDecAux n acc := by
  intro fuel
  induction fuel with
  | zero =>
    intro n acc h
    have hn : n = 0 := Nat.le_zero.mp h
    subst hn
    simp [toDecFuel, toDecAux_zero]
  | succ f ih =>
    intro n acc h
    by_cases hn : n = 0
    · subst hn; simp [toDecFuel, toDecAux_zero]
    · have hlt : n / 10 ≤ f := by
        have := Nat.div_lt_self (Nat.pos_of_ne_zero hn) (by omega : 1 < 10)
        omega
      simp only [toDecFuel, if_neg hn]
      rw [ih _ _ hlt, ← toDecAux_pos n acc hn]

theorem toHexFuel_eq_aux : ∀ (fuel n : Nat) (acc : List Char), n ≤ fuel →
    toHexFuel fuel n acc = toHexAux n acc := by
  intro fuel
  induction fuel with
  | zero =>
    intro n acc h
    have hn : n = 0 := Nat.le_zero.mp h
    subst hn
    simp [toHexFuel, toHexAux_zero]
  | succ f ih =>
    intro n acc h
    by_cases hn : n = 0
    · subst hn; simp [toHexFuel, toHexAux_zero]
    · have hlt : n / 16 ≤ f := by
        have := Nat.div_lt_self (Nat.pos_of_ne_zero hn) (by omega : 1 < 16)
        omega
      simp only [toHexFuel, if_neg hn]
      rw [ih _ _ hlt, ← toHexAux_pos n acc hn]

theorem natToDec_eq_aux (n : Nat) : natToDec n = if n = 0 then ['0'] else toDecAux n [] := by
  by_cases h : n = 0
  · simp [natToDec, h]
  · simp [natToDec, h, toDecFuel_eq_aux n n [] le_rfl]

theorem natToHex_eq_aux (n : Nat) : natToHex n = if n = 0 then ['0'] else toHexAux n [] := by
  by_cases h : n = 0
  · simp [natToHex, h]
  · simp [natToHex, h, toHexFuel_eq_aux n n [] le_rfl]

theorem toDecAux_acc (n : Nat) : ∀ acc, toDecAux n acc = toDecAux n [] ++ acc := by
  induction n using Nat.strong_induction_on with
  | _ n ih =>
    intro acc
    by_cases h : n = 0
    · subst h; simp [toDecAux_zero]
    · have hd : n / 10 < n := Nat.div_lt_self (Nat.pos_of_ne_zero h) (by omega)
      rw [toDecAux_pos n acc h, toDecAux_pos n [] h, ih _ hd, ih _ hd [digitChar (n % 10)]]
      simp

theorem toHexAux_acc (n : Nat) : ∀ acc, toHexAux n acc = toHexAux n [] ++ acc := by
  induction n using Nat.strong_induction_on with
  | _ n ih =>
    intro acc
    by_cases h : n = 0
    · subst h; simp [toHexAux_zero]
    · have hd : n / 16 < n := Nat.div_lt_self (Nat.pos_of_ne_zero h) (by omega)
      rw [toHexAux_pos n acc h, toHexAux_pos n [] h, ih _ hd, ih _ hd [digitChar (n % 16)]]
      simp

theorem digitChar_toNat_lt10 (m : Nat) (h : m < 10) : (digitChar m).toNat = 48 + m := by
  have hv : (48 + m).isValidChar := Or.inl (by omega)
  simp only [digitChar, if_pos h, Char.ofNat, hv, dite_true, Char.ofNatAux, Char.toNat]
  rfl

theorem digitChar_toNat_ge10 (m : Nat) (h10 : 10 ≤ m) (h16 : m < 16) :
    (digitChar m).toNat = 87 + m := by
  have hv : (87 + m).isValidChar := Or.inl (by omega)
  simp only [digitChar, if_neg (by omega : ¬ m < 10), Char.ofNat, hv, dite_true,
    Char.ofNatAux, Char.toNat]
  rfl

theorem pyIsDigit_digitChar (m : Nat) (h : m < 10) : pyIsDigit (digitChar m) = true := by
  simp only [pyIsDigit, digitChar_toNat_lt10 m h, Bool.and_eq_true, decide_eq_true_eq]
  omega

theorem digitChar_of_digit (c : Char) (h : pyIsDigit c = true) :
    digitChar (c.toNat - 48) = c := by
  simp only [pyIsDigit, Bool.and_eq_true, decide_eq_true_eq] at h
  have h1 : c.toNat - 48 < 10 := by omega
  rw [digitChar, if_pos h1]
  have h2 : 48 + (c.toNat - 48) = c.toNat := by omega
  rw [h2, Char.ofNat_toNat]

theorem toNat_eq_48_imp_eq_zero_char (c : Char) (h : c.toNat = 48) : c = '0' := by
  have := Char.ofNat_toNat c
  rw [h] at this
  exact this.symm.trans rfl

theorem mem_toDecAux_digit (n : Nat) : ∀ acc, (∀ c ∈ acc, pyIsDigit c = true) →
    ∀ c ∈ toDecAux n acc, pyIsDigit c = true := by
  induction n using Nat.strong_induction_on with
  | _ n ih =>
    intro acc hacc c hc
    by_cases h : n = 0
    · subst h; rw [toDecAux_zero] at hc; exact hacc c hc
    · have hd : n / 10 < n := Nat.div_lt_self (Nat.pos_of_ne_zero h) (by omega)
      rw [toDecAux_pos n acc h] at hc
      refine ih _ hd _ ?_ c hc
      intro d hd'
      rcases List.mem_cons.mp hd' with h1 | h1
      · subst h1; exact pyIsDigit_digitChar _ (Nat.mod_lt _ (by omega))
      · exact hacc d h1

theorem mem_toHexAux_hexLower (n : Nat) : ∀ acc,
    (∀ c ∈ acc, pyIsDigit c = true ∨ (97 ≤ c.toNat ∧ c.toNat ≤ 102)) →
    ∀ c ∈ toHexAux n acc, pyIsDigit c = true ∨ (97 ≤ c.toNat ∧ c.toNat ≤ 102) := by
  induction n using Nat.strong_induction_on with
  | _ n ih =>
    intro acc hacc c hc
    by_cases h : n = 0
    · subst h; rw [toHexAux_zero] at hc; exact hacc c hc
    · have hd : n / 16 < n := Nat.div_lt_self (Nat.pos_of_ne_zero h) (by omega)
      rw [toHexAux_pos n acc h] at hc
      refine ih _ hd _ ?_ c hc
      intro d hd'
      rcases List.mem_cons.mp hd' with h1 | h1
      · subst h1
        have hm : n % 16 < 16 := Nat.mod_lt _ (by omega)
        by_cases hub : n % 16 < 10
        · exact Or.inl (pyIsDigit_digitChar _ hub)
        · right
          rw [digitChar_toNat_ge10 _ (by omega) hm]
          omega
      · exact hacc d h1

theorem toDecAux_ne_nil (n : Nat) (h : n ≠ 0) : toDecAux n [] ≠ [] := by
  rw [toDecAux_pos n [] h, toDecAux_acc]
  simp

theorem toHexAux_ne_nil (n : Nat) (h : n ≠ 0) : toHexAux n [] ≠ [] := by
  rw [toHexAux_pos n [] h, toHexAux_acc]
  simp

theorem natToDec_ne_nil (n : Nat) : natToDec n ≠ [] := by
  rw [natToDec_eq_aux]
  by_cases h : n = 0
  · simp [h]
  · simp only [if_neg h]
    exact toDecAux_ne_nil n h

theorem natToHex_ne_nil (n : Nat) : natToHex n ≠ [] := by
  rw [natToHex_eq_aux]
  by_cases h : n = 0
  · simp [h]
  · simp only [if_neg h]
    exact toHexAux_ne_nil n h

/-! ## Helper lemmas: decimal value round trip -/

theorem decVal_append_singleton (l : List Char) (c : Char) :
    decVal (l ++ [c]) = 10 * decVal l + (c.toNat - 48) := by
  simp [decVal, List.foldl_append]

theorem foldl_decStep_ge (l : List Char) :
    ∀ a : Nat, a ≤ l.foldl (fun a c => 10 * a + (c.toNat - 48)) a := by
  induction l with
  | nil => intro a; simp
  | cons c t ih =>
    intro a
    calc a ≤ 10 * a + (c.toNat - 48) := by omega
      _ ≤ _ := by simpa using ih (10 * a + (c.toNat - 48))

theorem decVal_pos (h : Char) (t : List Char) (hdig : pyIsDigit h = true) (hne : h ≠ '0') :
    0 < decVal (h :: t) := by
  simp only [pyIsDigit, Bool.and_eq_true, decide_eq_true_eq] at hdig
  have h48 : h.toNat ≠ 48 := fun hc => hne (toNat_eq_48_imp_eq_zero_char h hc)
  have : 10 * 0 + (h.toNat - 48) ≤ decVal (h :: t) := by
    simpa [decVal] using foldl_decStep_ge t (10 * 0 + (h.toNat - 48))
  omega

theorem natToDec_decVal : ∀ (l : List Char), l ≠ [] → (∀ c ∈ l, pyIsDigit c = true) →
    (l = ['0'] ∨ l.head? ≠ some '0') → natToDec (decVal l) = l := by
  intro l
  induction l using List.reverseRecOn with
  | nil => intro h; exact absurd rfl h
  | append_singleton l c ih =>
    intro _ hdig hlead
    have hcdig : pyIsDigit c = true := hdig c (by simp)
    have hcrange : 48 ≤ c.toNat ∧ c.toNat ≤ 57 := by
      simpa [pyIsDigit, Bool.and_eq_true, decide_eq_true_eq] using hcdig
    by_cases hl : l = []
    · subst hl
      simp only [List.nil_append]
      have hd : decVal [c] = c.toNat - 48 := by simp [decVal]
      by_cases hc0 : c = '0'
      · subst hc0
        simp [hd, natToDec]
      · have hpos : c.toNat - 48 ≠ 0 := by
          intro hz
          exact hc0 (toNat_eq_48_imp_eq_zero_char c (by omega))
        rw [hd, natToDec_eq_aux, if_neg hpos, toDecAux_pos _ _ hpos]
        have hdiv : (c.toNat - 48) / 10 = 0 := Nat.div_eq_of_lt (by omega)
        have hmod : (c.toNat - 48) % 10 = c.toNat - 48 := Nat.mod_eq_of_lt (by omega)
        rw [hdiv, hmod, toDecAux_zero, digitChar_of_digit c hcdig]
    · obtain ⟨h0, t0, rfl⟩ := List.exists_cons_of_ne_nil hl
      have hh0 : h0 ≠ '0' := by
        rcases hlead with h1 | h1
        · exact absurd (congrArg List.length h1) (by simp)
        · intro hc; exact h1 (by simp [hc])
      have hh0dig : pyIsDigit h0 = true := hdig h0 (by simp)
      have hv : 0 < decVal (h0 :: t0) := decVal_pos h0 t0 hh0dig hh0
      set v := decVal (h0 :: t0) with hvdef
      set d := c.toNat - 48 with hddef
      have hd9 : d ≤ 9 := by omega
      have hsum : decVal ((h0 :: t0) ++ [c]) = 10 * v + d := decVal_append_singleton _ c
      have hn0 : 10 * v + d ≠ 0 := by omega
      rw [hsum, natToDec_eq_aux, if_neg hn0, toDecAux_pos _ _ hn0]
      have hdiv : (10 * v + d) / 10 = v := by
        rw [Nat.mul_add_div (by omega)]
        omega
      have hmod : (10 * v + d) % 10 = d := by
        rw [Nat.mul_add_mod]
        exact Nat.mod_eq_of_lt (by omega)
      rw [hdiv, hmod, toDecAux_acc]
      have hih : natToDec v = h0 :: t0 := by
        refine ih hl (fun x hx => hdig x ?_) (Or.inr (by simp [hh0]))
        rcases List.mem_cons.mp hx with h1 | h1
        · simp [h1]
        · simp [List.mem_cons, List.mem_append, h1]
      rw [hvdef] at hih
      rw [natToDec_eq_aux, if_neg (by omega)] at hih
      rw [hih, digitChar_of_digit c hcdig]

/-! ## Helper lemmas: split and join -/

theorem splitOnChar_ne_nil (sep : Char) : ∀ l, splitOnChar sep l ≠ [] := by
  intro l
  cases l with
  | nil => simp [splitOnChar]
  | cons c rest =>
    simp only [splitOnChar]
    cases hsp : splitOnChar sep rest with
    | nil => by_cases hc : c = sep <;> simp [hc]
    | cons h t => by_cases hc : c = sep <;> simp [hc]

theorem joinWith_splitOnChar (sep : Char) : ∀ l, joinWith sep (splitOnChar sep l) = l := by
  intro l
  induction l with
  | nil => rfl
  | cons c rest ih =>
    simp only [splitOnChar]
    cases hsp : splitOnChar sep rest with
    | nil => exact absurd hsp (splitOnChar_ne_nil sep rest)
    | cons h t =>
      rw [hsp] at ih
      by_cases hc : c = sep
      · subst hc
        simp only [if_pos rfl]
        show [] ++ c :: joinWith c (h :: t) = c :: rest
        rw [List.nil_append, ih]
      · simp only [if_neg hc]
        cases t with
        | nil =>
          show c :: h = c :: rest
          rw [show joinWith sep [h] = h from rfl] at ih
          rw [ih]
        | cons t1 ts =>
          show (c :: h) ++ sep :: joinWith sep (t1 :: ts) = c :: rest
          rw [← ih]
          rfl

/-! ## Helper lemmas: IPv4 parsing round trip -/

theorem parseOctet_natToDec (p : List Char) (v : Nat) (h : parseOctet p = some v) :
    natToDec v = p := by
  rw [parseOctet] at h
  split_ifs at h with h1 h2 h3 h4 h5
  have hv : decVal p = v := Option.some.inj h
  subst hv
  refine natToDec_decVal p ?_ ?_ ?_
  · intro hn; subst hn; simp at h1
  · intro c hc
    have hall : p.all pyIsDigit = true := by
      rcases Bool.eq_false_or_eq_true (p.all pyIsDigit) with ht | hf
      · exact ht
      · rw [hf] at h2; simp at h2
    exact (List.all_eq_true.mp hall) c hc
  · by_cases hp : p = ['0']
    · exact Or.inl hp
    · right
      intro hh
      exact h4 ⟨hp, hh⟩

theorem mapM_parseOctet_natToDec : ∀ (ps : List (List Char)) (os : List Nat),
    ps.mapM parseOctet = some os → os.map natToDec = ps := by
  intro ps
  induction ps with
  | nil =>
    intro os h
    simp only [List.mapM_nil, pure, Option.some.injEq] at h
    simp [← h]
  | cons p pt ih =>
    intro os h
    rw [List.mapM_cons] at h
    cases hp : parseOctet p with
    | none => rw [hp] at h; simp at h
    | some v =>
      rw [hp] at h
      cases ht : pt.mapM parseOctet with
      | none => rw [ht] at h; simp at h
      | some vs =>
        rw [ht] at h
        have h2 : some (v :: vs) = some os := h
        have h3 := Option.some.inj h2
        subst h3
        simp [parseOctet_natToDec p v hp, ih vs ht]

theorem parseIPv4_roundtrip (l : List Char) (octs : List Nat)
    (h : parseIPv4 l = some octs) : joinWith '.' (octs.map natToDec) = l := by
  simp only [parseIPv4] at h
  split_ifs at h with h1 h2
  rw [mapM_parseOctet_natToDec _ _ h]
  exact joinWith_splitOnChar '.' l

/-! ## Claim C6 -/

/-- C6, counterexample: the input `2001:DB8::1` is a valid IP address string
(validate accepts it), stripping changes nothing, yet validate returns the
canonicalized `2001:db8::1`, not the input — so validate is not the identity
up to whitespace-trimming on all valid IP strings. -/
theorem C6_counterexample :
    validate_ip "2001:DB8::1" = some "2001:db8::1" ∧
    pyStripS "2001:DB8::1" = "2001:DB8::1" ∧
    ("2001:db8::1" : String) ≠ "2001:DB8::1" := by
  refine ⟨by decide, by decide, by decide⟩

/-- C6 (amended): for every input whose stripped form is a valid dotted-quad
IPv4 address, `validate_ip` is the identity up to whitespace-trimming; for
valid IPv6 inputs it returns the address's canonical compressed lowercase
form, which can differ from the trimmed input; every input that parses as
neither IPv4 nor IPv6 is rejected. -/
theorem C6_validate_ip_ipv4_identity_and_rejection :
    (∀ (s : String) (octs : List Nat), parseIPv4 (pyStrip s.data) = some octs →
      validate_ip s = some (pyStripS s)) ∧
    (∀ s : String, validate_ip s = none ↔ ip_address (pyStrip s.data) = none) := by
  constructor
  · intro s octs h
    have hstr : ipAddrStr (.v4 octs) = pyStrip s.data := parseIPv4_roundtrip _ _ h
    simp only [validate_ip, ip_address, h]
    show some (String.mk (ipAddrStr (IPAddr.v4 octs))) = some (pyStripS s)
    rw [hstr]
    rfl
  · intro s
    rw [validate_ip, Option.map_eq_none']

/-- C6 witness: instantiating the amended theorem at `" 8.8.8.8 "`. -/
theorem C6_validate_ip_ipv4_identity_and_rejection_witness :
    validate_ip " 8.8.8.8 " = some (pyStripS " 8.8.8.8 ") :=
  C6_validate_ip_ipv4_identity_and_rejection.1 " 8.8.8.8 " [8, 8, 8, 8] (by decide)

/-! ## Claim C1 -/

/-- C1: if any OS call inside `atomic_write` raises (opening/writing/fsyncing
the temp file, or the rename itself), the operation returns `False`, appends
an ERROR log entry naming the cause, leaves the target file exactly as it
was, and leaves no temporary file behind; with no failure it installs the new
content and also leaves no temporary file. -/
theorem C1_atomic_write_failure_preserves_target (path : String) (fs : WriteFS)
    (content : String) (step : WriteStep) :
    (atomic_write path fs content (some step)).1 = false ∧
    (atomic_write path fs content (some step)).2.1.target = fs.target ∧
    (atomic_write path fs content (some step)).2.1.temp = none ∧
    (atomic_write path fs content (some step)).2.2 =
      [LogEntry.mk "ERROR" ("Atomic write failed for " ++ path ++ ": " ++ writeStepMsg step)] ∧
    atomic_write path fs content none = (true, WriteFS.mk (some content) none, []) := by
  cases step <;> exact ⟨rfl, rfl, rfl, rfl, rfl⟩

/-! ## Claim C5 -/

/-- C5, counterexample: when the stop call times out, `safe_restart_service`
does not treat the service as already stopped and proceed — it returns
failure without attempting the start (here the start would have succeeded);
only a nonzero stop exit status is tolerated. -/
theorem C5_counterexample :
    safe_restart_service ProcOutcome.timedOut ProcOutcome.ok =
      (false, RestartCause.restartTimedOut) ∧
    safe_restart_service ProcOutcome.nonzeroExit ProcOutcome.ok =
      (true, RestartCause.started) := ⟨rfl, rfl⟩

/-- C5 (amended): stop runs with a 10 s bound and a nonzero stop exit is
tolerated (the function then behaves exactly as if stop had succeeded), but a
stop timeout is fatal and is reported with the same timeout cause as a start
timeout; after a fixed 1 s settle, start runs with a 15 s bound; on start
problems the function returns failure with a printed cause distinguishing
`CalledProcessError` (start failed) from `TimeoutExpired`; the boolean return
value alone does not carry the cause. -/
theorem C5_safe_restart_amended :
    (∀ start, safe_restart_service ProcOutcome.nonzeroExit start =
      safe_restart_service ProcOutcome.ok start) ∧
    (∀ start, safe_restart_service ProcOutcome.timedOut start =
      (false, RestartCause.restartTimedOut)) ∧
    safe_restart_service ProcOutcome.ok ProcOutcome.nonzeroExit =
      (false, RestartCause.startFailed) ∧
    safe_restart_service ProcOutcome.ok ProcOutcome.timedOut =
      (false, RestartCause.restartTimedOut) ∧
    RestartCause.startFailed ≠ RestartCause.restartTimedOut ∧
    stopTimeoutSeconds = 10 ∧ settleSeconds = 1 ∧ startTimeoutSeconds = 15 := by
  refine ⟨fun start => by cases start <;> rfl, fun start => rfl, rfl, rfl, by decide, rfl, rfl, rfl⟩

/-! ## Claim C2 -/

/-- C2, counterexample: in a fully successful DoT transition the resolver
file is overwritten, yet no `backup_file` call on the resolver file occurs
anywhere in the trace — the snapshot-before-overwrite step exists only in
the Standard transition. -/
theorem C2_counterexample :
    (setup_dot "Cloudflare" oracleAllOk).1.any isWriteResolv = true ∧
    (setup_dot "Cloudflare" oracleAllOk).1.any isBackupResolv = false ∧
    (setup_dot "Cloudflare" oracleAllOk).2 = PyOutcome.normal := by decide

/-- C2 (amended): only the Standard transition snapshots the resolver file —
there the backup always precedes the overwrite, and it is taken (once
validation passed and the silent-restore step returned) even when the write
then fails; the DoT and DoH transitions never snapshot the resolver file, and
the backup they do take before an overwrite is of their service config
(`resolved.conf` resp. `dnscrypt-proxy.toml`). -/
theorem C2_backup_before_overwrite_amended :
    (∀ ns p t o, guardedBy isBackupResolv isWriteResolv (set_dns ns p t o).1 = true) ∧
    (∀ ns p t o v vs, ns.filterMap validate_ip = v :: vs →
        (set_dns ns p t o).2 = PyOutcome.normal →
        (set_dns ns p t o).1.any isBackupResolv = true) ∧
    (∀ prov o, (setup_dot prov o).1.any isBackupResolv = false ∧
        guardedBy isBackupResolved isWriteResolved (setup_dot prov o).1 = true) ∧
    (∀ prov o, (setup_doh prov o).1.any isBackupResolv = false ∧
        guardedBy isBackupDnscrypt isWriteDnscrypt (setup_doh prov o).1 = true) := by
  refine ⟨?_, ?_, ?_, ?_⟩
  · intro ns p t o
    obtain ⟨c1, lb, c2, c3, c4, c5, c6, c7, c8, c9, c10, c11, c12, c13, c14⟩ := o
    cases hv : ns.filterMap validate_ip <;>
      simp only [set_dns, hv] <;>
      cases lb <;> cases c2 <;> cases c6 <;> cases c9 <;> rfl
  · intro ns p t o v vs hv hnorm
    obtain ⟨c1, lb, c2, c3, c4, c5, c6, c7, c8, c9, c10, c11, c12, c13, c14⟩ := o
    simp only [set_dns, hv] at hnorm ⊢
    cases lb <;> cases c2 <;> cases c6 <;> cases c9 <;>
      first
      | rfl
      | exact absurd hnorm (by simp [restore_systemd_config_silent])
  · intro prov o
    obtain ⟨c1, lb, c2, c3, c4, c5, c6, c7, c8, c9, c10, c11, c12, c13, c14⟩ := o
    cases hp : dotParams? prov <;>
      simp only [setup_dot, hp] <;>
      cases c1 <;> cases c4 <;> cases c5 <;> cases c6 <;> exact ⟨rfl, rfl⟩
  · intro prov o
    obtain ⟨c1, lb, c2, c3, c4, c5, c6, c7, c8, c9, c10, c11, c12, c13, c14⟩ := o
    cases hk : DOH_PROVIDERS_keys.contains prov <;>
      cases hp : dohProvider? prov <;>
      simp only [setup_doh, hk, hp] <;>
      cases c6 <;> cases c7 <;> cases c8 <;> cases c10 <;> cases c11 <;> cases c12 <;>
      cases c13 <;> cases c14 <;> exact ⟨rfl, rfl⟩

/-- C2 witness: instantiating the backup-presence part of the amended claim
on a concrete Standard transition whose write fails. -/
theorem C2_backup_before_overwrite_amended_witness :
    (set_dns ["1.1.1.1"] "Cloudflare" "now"
        ⟨true, none, true, true, true, true, false, true, true, true, true, true, true, true, true⟩).1.any
      isBackupResolv = true :=
  C2_backup_before_overwrite_amended.2.1 ["1.1.1.1"] "Cloudflare" "now" _ "1.1.1.1" []
    (by decide) (by decide)

/-! ## Claim C4 -/

/-- C4: in each of the three transition procedures, every `atomic_write` call
on the resolver file is preceded by an `unlock` of the resolver file, and a
`lock` occurs only after a successful `atomic_write` on the resolver file —
never before a write, and never when the write failed. -/
theorem C4_unlock_before_write_lock_after_success :
    (∀ ns p t o, guardedBy isUnlock isWriteResolv (set_dns ns p t o).1 = true ∧
      guardedBy isSuccessWriteResolv isLock (set_dns ns p t o).1 = true) ∧
    (∀ prov o, guardedBy isUnlock isWriteResolv (setup_dot prov o).1 = true ∧
      guardedBy isSuccessWriteResolv isLock (setup_dot prov o).1 = true) ∧
    (∀ prov o, guardedBy isUnlock isWriteResolv (setup_doh prov o).1 = true ∧
      guardedBy isSuccessWriteResolv isLock (setup_doh prov o).1 = true) := by
  refine ⟨?_, ?_, ?_⟩
  · intro ns p t o
    obtain ⟨c1, lb, c2, c3, c4, c5, c6, c7, c8, c9, c10, c11, c12, c13, c14⟩ := o
    cases hv : ns.filterMap validate_ip <;>
      simp only [set_dns, hv] <;>
      cases lb <;> cases c2 <;> cases c6 <;> cases c9 <;> exact ⟨rfl, rfl⟩
  · intro prov o
    obtain ⟨c1, lb, c2, c3, c4, c5, c6, c7, c8, c9, c10, c11, c12, c13, c14⟩ := o
    cases hp : dotParams? prov <;>
      simp only [setup_dot, hp] <;>
      cases c1 <;> cases c4 <;> cases c5 <;> cases c6 <;> exact ⟨rfl, rfl⟩
  · intro prov o
    obtain ⟨c1, lb, c2, c3, c4, c5, c6, c7, c8, c9, c10, c11, c12, c13, c14⟩ := o
    cases hk : DOH_PROVIDERS_keys.contains prov <;>
      cases hp : dohProvider? prov <;>
      simp only [setup_doh, hk, hp] <;>
      cases c6 <;> cases c7 <;> cases c8 <;> cases c10 <;> cases c11 <;> cases c12 <;>
      cases c13 <;> cases c14 <;> exact ⟨rfl, rfl⟩

/-! ## Claim C7 -/

/-- C7, counterexample: `setup_dot` with a provider key outside its
`if`/`elif` chain does not fail cleanly with an UnknownProvider outcome — it
terminates with an uncaught `NameError` (the f-string references the unbound
`dns_ip`), although indeed no config file has been written, copied or
removed at that point. -/
theorem C7_counterexample :
    (setup_dot "OpenDNS" oracleAllOk).2 = PyOutcome.raisedNameError ∧
    (setup_dot "OpenDNS" oracleAllOk).1.any isFileMutation = false := by decide

/-- C7 (amended): a DoH transition with a key outside `DOH_PROVIDERS` fails
cleanly — it returns normally after only the audit-log entry, with no file
operation of any kind; a DoT transition with a key outside its dispatch
chain likewise performs no file operation, but (when the resolved-service
config exists, so that the provider dispatch is reached) it terminates with
an uncaught `NameError` instead of a clean failure. -/
theorem C7_unknown_provider_amended :
    (∀ prov o, DOH_PROVIDERS_keys.contains prov = false →
      (setup_doh prov o).2 = PyOutcome.normal ∧
      (setup_doh prov o).1.any isFileMutation = false) ∧
    (∀ prov o, dotParams? prov = none →
      (setup_dot prov o).1.any isFileMutation = false ∧
      (setup_dot prov o).2 =
        (if o.resolvedConfExists then PyOutcome.raisedNameError else PyOutcome.normal)) := by
  constructor
  · intro prov o hk
    simp only [setup_doh, hk]
    exact ⟨rfl, rfl⟩
  · intro prov o hp
    obtain ⟨c1, lb, c2, c3, c4, c5, c6, c7, c8, c9, c10, c11, c12, c13, c14⟩ := o
    simp only [setup_dot, hp]
    cases c1 <;> exact ⟨rfl, rfl⟩

/-- C7 witness: instantiating the amended claim at the concrete unknown keys
`Quad9` (absent from `DOH_PROVIDERS`) and `AdGuard` (absent from the DoT
chain). -/
theorem C7_unknown_provider_amended_witness :
    (setup_doh "Quad9" oracleAllOk).2 = PyOutcome.normal ∧
    (setup_dot "AdGuard" oracleAllOk).1.any isFileMutation = false := by
  refine ⟨(C7_unknown_provider_amended.1 "Quad9" oracleAllOk (by decide)).1,
    (C7_unknown_provider_amended.2 "AdGuard" oracleAllOk (by decide)).1⟩

/-! ## Claim C8 -/

/-- C8, counterexample: with a stale backup of the resolved-service config
present and the restore copy failing, the exception from `shutil.copy2`
propagates out of `restore_systemd_config_silent` and aborts the enclosing
Standard transition — the restore step is not fully best-effort. -/
theorem C8_counterexample :
    (restore_systemd_config_silent oracleCopyFail).2 = PyOutcome.raisedOSError ∧
    (set_dns ["8.8.8.8"] "Custom" "timestamp" oracleCopyFail).2 =
      PyOutcome.raisedOSError := by decide

/-- C8 (amended): in the silent-restore step, failures of the backup lookup
(folded into a `None` result) and of the service restart are swallowed, but
a failure of the copy itself raises an uncaught exception and aborts the
enclosing `set_dns` transition. -/
theorem C8_silent_restore_amended :
    (∀ o, o.latestResolvedBackup = none →
      restore_systemd_config_silent o = ([], PyOutcome.normal)) ∧
    (∀ o b, o.latestResolvedBackup = some b → o.restoreCopyOk = true →
      (restore_systemd_config_silent o).2 = PyOutcome.normal) ∧
    (∀ o b, o.latestResolvedBackup = some b → o.restoreCopyOk = false →
      (restore_systemd_config_silent o).2 = PyOutcome.raisedOSError ∧
      (∀ ns p t v vs, ns.filterMap validate_ip = v :: vs →
        (set_dns ns p t o).2 = PyOutcome.raisedOSError)) := by
  refine ⟨?_, ?_, ?_⟩
  · intro o h
    simp [restore_systemd_config_silent, h]
  · intro o b h hc
    simp [restore_systemd_config_silent, h, hc]
  · intro o b h hc
    constructor
    · simp [restore_systemd_config_silent, h, hc]
    · intro ns p t v vs hv
      simp [set_dns, hv, restore_systemd_config_silent, h, hc]

/-- C8 witness: instantiating the amended claim at the concrete failing
oracle, and at its repaired variants. -/
theorem C8_silent_restore_amended_witness :
    (restore_systemd_config_silent oracleCopyFail).2 = PyOutcome.raisedOSError ∧
    restore_systemd_config_silent oracleAllOk = ([], PyOutcome.normal) := by
  refine ⟨(C8_silent_restore_amended.2.2 oracleCopyFail
      "/etc/systemd/resolved.conf.backup_20260101_000000" (by decide) (by decide)).1,
    C8_silent_restore_amended.1 oracleAllOk (by decide)⟩

/-! ## Helper lemmas: Standard-mode content structure -/

theorem foldl_ns_append (ips : List String) :
    ∀ init : String, ips.foldl (fun c ns => c ++ "nameserver " ++ ns ++ "\n") init =
      init ++ nsBody ips := by
  induction ips with
  | nil => intro init; simp [nsBody, String.append_empty]
  | cons ip rest ih =>
    intro init
    show rest.foldl _ (init ++ "nameserver " ++ ip ++ "\n") = init ++ nsBody (ip :: rest)
    rw [ih]
    have hbody : nsBody (ip :: rest) =
        (("" : String) ++ "nameserver " ++ ip ++ "\n") ++ nsBody rest := by
      show rest.foldl _ (("" : String) ++ "nameserver " ++ ip ++ "\n") = _
      rw [ih]
    rw [hbody]
    simp [String.append_assoc, String.empty_append]

theorem setDnsContent_factor (p t : String) (ips : List String) :
    setDnsContent p t ips = setDnsHeader p t ++ nsBody ips :=
  foldl_ns_append ips (setDnsHeader p t)

theorem string_append_right_cancel (a b c : String) (h : a ++ c = b ++ c) : a = b := by
  have hd := congrArg String.data h
  simp only [String.data_append] at hd
  have := List.append_cancel_right hd
  cases a; cases b; exact congrArg String.mk this

theorem string_append_left_cancel (a b c : String) (h : a ++ b = a ++ c) : b = c := by
  have hd := congrArg String.data h
  simp only [String.data_append] at hd
  have := List.append_cancel_left hd
  cases b; cases c; exact congrArg String.mk this

theorem setDnsHeader_inj (p t1 t2 : String) (h : setDnsHeader p t1 = setDnsHeader p t2) :
    t1 = t2 := by
  rw [setDnsHeader, setDnsHeader] at h
  have h1 := string_append_right_cancel _ _ "\n" h
  exact string_append_left_cancel _ _ _ h1

/-! ## Claim C3 -/

/-- C3, counterexample: two successive Standard transitions with identical
provider, addresses and oracle, differing only in the wall-clock timestamp,
write different byte content to the resolver file (the `# Updated at:`
header line embeds `datetime.now()`), so re-applying the same mode twice
does not produce identical final resolver-file bytes. -/
theorem C3_counterexample :
    resolvWriteContents (set_dns ["8.8.8.8", "8.8.4.4"] "Google"
        "2026-02-20 10:00:00.000001" oracleAllOk).1 ≠
      resolvWriteContents (set_dns ["8.8.8.8", "8.8.4.4"] "Google"
        "2026-02-20 10:00:00.000002" oracleAllOk).1 := by decide

/-- C3 (amended): re-applying the same mode twice yields byte-identical
resolver content except for the timestamp: the Standard content factors into
a timestamp-bearing comment header plus the nameserver lines, is identical
across two runs exactly when the two timestamps coincide (everything after
the header is reproduced exactly), and every resolver write performed by the
DoT / DoH / Standard transitions carries the fixed (respectively
timestamp-headed) content, so DoT and DoH re-application is byte-identical.
-/
theorem C3_reapply_content_amended :
    (∀ p t ips, setDnsContent p t ips = setDnsHeader p t ++ nsBody ips) ∧
    (∀ p t1 t2 ips, setDnsContent p t1 ips = setDnsContent p t2 ips ↔ t1 = t2) ∧
    (∀ prov o c, c ∈ resolvWriteContents (setup_dot prov o).1 → c = dotResolvContent) ∧
    (∀ prov o c, c ∈ resolvWriteContents (setup_doh prov o).1 → c = dohResolvContent prov) ∧
    (∀ ns p t o c, c ∈ resolvWriteContents (set_dns ns p t o).1 →
      c = setDnsContent p t (ns.filterMap validate_ip)) := by
  refine ⟨setDnsContent_factor, ?_, ?_, ?_, ?_⟩
  · intro p t1 t2 ips
    constructor
    · intro h
      rw [setDnsContent_factor, setDnsContent_factor] at h
      exact setDnsHeader_inj p t1 t2 (string_append_right_cancel _ _ _ h)
    · intro h; rw [h]
  · intro prov o c hc
    obtain ⟨c1, lb, c2, c3, c4, c5, c6, c7, c8, c9, c10, c11, c12, c13, c14⟩ := o
    cases hp : dotParams? prov <;> simp only [setup_dot, hp] at hc <;>
      cases c1 <;> cases c4 <;> cases c5 <;> cases c6 <;>
      first
      | exact absurd hc (List.not_mem_nil c)
      | exact List.mem_singleton.mp hc
  · intro prov o c hc
    obtain ⟨c1, lb, c2, c3, c4, c5, c6, c7, c8, c9, c10, c11, c12, c13, c14⟩ := o
    cases hk : DOH_PROVIDERS_keys.contains prov <;>
      cases hp : dohProvider? prov <;>
      simp only [setup_doh, hk, hp] at hc <;>
      cases c6 <;> cases c7 <;> cases c8 <;> cases c10 <;> cases c11 <;> cases c12 <;>
      cases c13 <;> cases c14 <;>
      first
      | exact absurd hc (List.not_mem_nil c)
      | exact List.mem_singleton.mp hc
  · intro ns p t o c hc
    obtain ⟨c1, lb, c2, c3, c4, c5, c6, c7, c8, c9, c10, c11, c12, c13, c14⟩ := o
    cases hv : ns.filterMap validate_ip <;>
      simp only [set_dns, hv] at hc <;>
      cases lb <;> cases c2 <;> cases c6 <;> cases c9 <;>
      first
      | exact absurd hc (List.not_mem_nil c)
      | exact List.mem_singleton.mp hc

/-- C3 witness: instantiating the amended claim's content-origin parts on a
concrete successful DoT run and the timestamp-equivalence on concrete
arguments. -/
theorem C3_reapply_content_amended_witness :
    dotResolvContent = dotResolvContent ∧
    (setDnsContent "Google" "now" ["8.8.8.8"] = setDnsContent "Google" "now" ["8.8.8.8"] ↔
      ("now" : String) = "now") :=
  ⟨C3_reapply_content_amended.2.2.1 "Cloudflare" oracleAllOk dotResolvContent (by decide),
   C3_reapply_content_amended.2.1 "Google" "now" "now" ["8.8.8.8"]⟩

/-! ## Claim C9 -/

/-- C9: verification returns matched exactly when every expected address is
present among the addresses read back from the resolver file (a subset
check — extra observed addresses are tolerated); on mismatch it returns
failure (it cannot raise: the model is a total function) and logs one
VERIFY_FAIL entry carrying both the expected and the observed lists; the
spec's two concrete examples behave as stated. -/
theorem C9_verify_subset_check :
    (∀ expected f, ((verify_dns_change expected f).1 = true ↔
        ∀ ip ∈ expected, ip ∈ get_current_dns f)) ∧
    (∀ expected f, (verify_dns_change expected f).1 = false →
      (verify_dns_change expected f).2 = [LogEntry.mk "VERIFY_FAIL"
        ("Expected " ++ pyReprList expected ++ ", got " ++
          pyReprList (get_current_dns f))]) ∧
    (verify_dns_change ["8.8.8.8", "8.8.4.4"]
        (FileRead.lines ["nameserver 8.8.8.8", "nameserver 8.8.4.4"])).1 = true ∧
    (verify_dns_change ["8.8.8.8", "8.8.4.4"]
        (FileRead.lines ["nameserver 1.1.1.1"])).1 = false := by
  refine ⟨?_, ?_, by decide, by decide⟩
  · intro expected f
    simp only [verify_dns_change]
    split_ifs with hall
    · constructor
      · intro _ ip hip
        exact List.elem_iff.mp (List.all_eq_true.mp hall ip hip)
      · intro _; rfl
    · constructor
      · intro hfalse; exact absurd hfalse (by simp)
      · intro hmem
        exact absurd (List.all_eq_true.mpr
          (fun ip hip => List.elem_iff.mpr (hmem ip hip))) hall
  · intro expected f h
    simp only [verify_dns_change] at h ⊢
    split_ifs at h ⊢ with hall
    all_goals rfl

/-- C9 witness: the mismatch log at the spec's concrete example. -/
theorem C9_verify_subset_check_witness :
    (verify_dns_change ["8.8.8.8", "8.8.4.4"] (FileRead.lines ["nameserver 1.1.1.1"])).2 =
      [LogEntry.mk "VERIFY_FAIL"
        ("Expected " ++ pyReprList ["8.8.8.8", "8.8.4.4"] ++ ", got " ++
          pyReprList (get_current_dns (FileRead.lines ["nameserver 1.1.1.1"])))] :=
  C9_verify_subset_check.2.1 ["8.8.8.8", "8.8.4.4"]
    (FileRead.lines ["nameserver 1.1.1.1"]) (by decide)

/-! ## Helper lemmas: first character of a canonical address -/

theorem natToDec_digits (n : Nat) : ∀ c ∈ natToDec n, pyIsDigit c = true := by
  intro c hc
  rw [natToDec_eq_aux] at hc
  by_cases h : n = 0
  · rw [if_pos h] at hc
    simp at hc
    subst hc
    decide
  · rw [if_neg h] at hc
    exact mem_toDecAux_digit n [] (fun c hc => absurd hc (List.not_mem_nil c)) c hc

theorem natToHex_hexLower (n : Nat) : ∀ c ∈ natToHex n,
    pyIsDigit c = true ∨ (97 ≤ c.toNat ∧ c.toNat ≤ 102) := by
  intro c hc
  rw [natToHex_eq_aux] at hc
  by_cases h : n = 0
  · rw [if_pos h] at hc
    simp at hc
    subst hc
    exact Or.inl (by decide)
  · rw [if_neg h] at hc
    exact mem_toHexAux_hexLower n [] (fun c hc => absurd hc (List.not_mem_nil c)) c hc

theorem natToDec_head (n : Nat) : ∃ c cs, natToDec n = c :: cs ∧ pyIsDigit c = true := by
  cases hne : natToDec n with
  | nil => exact absurd hne (natToDec_ne_nil n)
  | cons c cs =>
    exact ⟨c, cs, rfl, natToDec_digits n c (by rw [hne]; exact List.mem_cons_self c cs)⟩

theorem natToHex_head (n : Nat) : ∃ c cs, natToHex n = c :: cs ∧
    (pyIsDigit c = true ∨ (97 ≤ c.toNat ∧ c.toNat ≤ 102)) := by
  cases hne : natToHex n with
  | nil => exact absurd hne (natToHex_ne_nil n)
  | cons c cs =>
    exact ⟨c, cs, rfl, natToHex_hexLower n c (by rw [hne]; exact List.mem_cons_self c cs)⟩

theorem joinWith_head (sep : Char) (x : List Char) (xs : List (List Char)) (c : Char)
    (cs : List Char) (hx : x = c :: cs) :
    ∃ tail, joinWith sep (x :: xs) = c :: tail := by
  subst hx
  cases xs with
  | nil => exact ⟨cs, rfl⟩
  | cons y ys => exact ⟨cs ++ sep :: joinWith sep (y :: ys), rfl⟩

theorem compress_join_head (h0 : List Char) (rest : List (List Char)) (c : Char)
    (cs : List Char) (hh0 : h0 = c :: cs) :
    ∃ d ds, joinWith ':' (compressHextets (h0 :: rest)) = d :: ds ∧ (d = c ∨ d = ':') := by
  simp only [compressHextets]
  by_cases hbl : (bestZeroRun (h0 :: rest)).2 > 1
  · rw [if_pos hbl]
    by_cases ha : (bestZeroRun (h0 :: rest)).1 = 0
    · rw [ha]
      exact ⟨':', _, rfl, Or.inr rfl⟩
    · obtain ⟨m, hm⟩ := Nat.exists_eq_succ_of_ne_zero ha
      rw [hm]
      have hsplit : (if m + 1 + (bestZeroRun (h0 :: rest)).2 = (h0 :: rest).length then
            (h0 :: rest) ++ [[]] else (h0 :: rest)) =
          h0 :: (if m + 1 + (bestZeroRun (h0 :: rest)).2 = (h0 :: rest).length then
            rest ++ [[]] else rest) := by
        split_ifs <;> rfl
      rw [hsplit, List.take_succ_cons, List.cons_append, List.cons_append]
      obtain ⟨tail, ht⟩ := joinWith_head ':' h0 _ c cs hh0
      exact ⟨c, tail, by rw [if_neg (Nat.succ_ne_zero m)]; exact ht, Or.inl rfl⟩
  · rw [if_neg hbl]
    obtain ⟨tail, ht⟩ := joinWith_head ':' h0 rest c cs hh0
    exact ⟨c, tail, ht, Or.inl rfl⟩

theorem ipv6StrNoScope_head (n : Nat) :
    ∃ c cs, ipv6StrNoScope n = c :: cs ∧
      (pyIsDigit c = true ∨ (97 ≤ c.toNat ∧ c.toNat ≤ 102) ∨ c = ':') := by
  obtain ⟨c0, cs0, hh0, hp0⟩ := natToHex_head (n / 65536 ^ 7 % 65536)
  have hhx : hextetsOf n = natToHex (n / 65536 ^ 7 % 65536) ::
      [natToHex (n / 65536 ^ 6 % 65536), natToHex (n / 65536 ^ 5 % 65536),
       natToHex (n / 65536 ^ 4 % 65536), natToHex (n / 65536 ^ 3 % 65536),
       natToHex (n / 65536 ^ 2 % 65536), natToHex (n / 65536 ^ 1 % 65536),
       natToHex (n / 65536 ^ 0 % 65536)] := rfl
  obtain ⟨d, ds, hj, hd⟩ := compress_join_head _
    [natToHex (n / 65536 ^ 6 % 65536), natToHex (n / 65536 ^ 5 % 65536),
     natToHex (n / 65536 ^ 4 % 65536), natToHex (n / 65536 ^ 3 % 65536),
     natToHex (n / 65536 ^ 2 % 65536), natToHex (n / 65536 ^ 1 % 65536),
     natToHex (n / 65536 ^ 0 % 65536)] c0 cs0 hh0
  refine ⟨d, ds, ?_, ?_⟩
  · rw [ipv6StrNoScope, hhx]
    exact hj
  · rcases hd with hd | hd
    · subst hd
      rcases hp0 with hp0 | hp0
      · exact Or.inl hp0
      · exact Or.inr (Or.inl hp0)
    · exact Or.inr (Or.inr hd)

theorem validate_ip_head (s t : String) (h : validate_ip s = some t) :
    ∃ c cs, t.data = c :: cs ∧
      (pyIsDigit c = true ∨ (97 ≤ c.toNat ∧ c.toNat ≤ 102) ∨ c = ':') := by
  rw [validate_ip] at h
  cases ha : ip_address (pyStrip s.data) with
  | none => rw [ha] at h; exact absurd h (by simp)
  | some a =>
    rw [ha] at h
    have h2 : some (String.mk (ipAddrStr a)) = some t := h
    have ht : t = String.mk (ipAddrStr a) := (Option.some.inj h2).symm
    cases a with
    | v4 octs =>
      have hp : parseIPv4 (pyStrip s.data) = some octs := by
        rw [ip_address] at ha
        cases hq : parseIPv4 (pyStrip s.data) with
        | some o =>
          rw [hq] at ha
          have h3 := Option.some.inj ha
          injection h3 with h4
          exact congrArg some h4
        | none =>
          rw [hq] at ha
          cases hr : parseIPv6 (pyStrip s.data) with
          | none => rw [hr] at ha; exact absurd ha (by simp)
          | some p6 =>
            rw [hr] at ha
            have h3 : some (IPAddr.v6 p6.1 p6.2) = some (IPAddr.v4 octs) := ha
            exact absurd (Option.some.inj h3) (by simp)
      rcases octs with _ | ⟨o, os⟩
      · have hl := parseIPv4_roundtrip _ _ hp
        rw [show joinWith '.' (List.map natToDec []) = [] from rfl] at hl
        rw [← hl] at hp
        exact absurd hp (by decide)
      · obtain ⟨c, cs, hcd, hcp⟩ := natToDec_head o
        obtain ⟨tail, hjoin⟩ := joinWith_head '.' (natToDec o) (os.map natToDec) c cs hcd
        refine ⟨c, tail, ?_, Or.inl hcp⟩
        rw [ht]
        exact hjoin
    | v6 n scope =>
      obtain ⟨c, cs, hj, hp6⟩ := ipv6StrNoScope_head n
      cases scope with
      | none =>
        refine ⟨c, cs ++ [], ?_, hp6⟩
        rw [ht]
        show ipv6StrNoScope n ++ [] = c :: (cs ++ [])
        rw [hj]
        rfl
      | some sc =>
        refine ⟨c, cs ++ ('%' :: sc), ?_, hp6⟩
        rw [ht]
        show ipv6StrNoScope n ++ ('%' :: sc) = c :: (cs ++ ('%' :: sc))
        rw [hj]
        rfl

/-- Every string produced by `validate_ip` differs from all three sentinel
strings `get_current_dns` can return, since canonical addresses begin with a
decimal digit, a lowercase hex letter, or a colon. -/
theorem validate_output_ne_sentinels (s t : String) (h : validate_ip s = some t) :
    t ≠ emptySentinel ∧ t ≠ missingSentinel ∧ ∀ msg, t ≠ "Error: " ++ msg := by
  obtain ⟨c, cs, hd, hp⟩ := validate_ip_head s t h
  refine ⟨?_, ?_, ?_⟩
  · intro he
    rw [he] at hd
    have hc : c = '(' := by
      have : ('(' : Char) :: "Kosong / Tidak ada nameserver)".data = c :: cs := hd
      exact (List.cons.inj this).1.symm
    rw [hc] at hp
    exact absurd hp (by decide)
  · intro he
    rw [he] at hd
    have hc : c = 'F' := by
      have : ('F' : Char) :: "ile belum ada (Akan dibuat otomatis)".data = c :: cs := hd
      exact (List.cons.inj this).1.symm
    rw [hc] at hp
    exact absurd hp (by decide)
  · intro msg he
    rw [he] at hd
    rw [String.data_append] at hd
    have hc : c = 'E' := by
      have : ('E' : Char) :: ("rror: ".data ++ msg.data) = c :: cs := hd
      exact (List.cons.inj this).1.symm
    rw [hc] at hp
    exact absurd hp (by decide)

/-! ## Claim C10 -/

/-- C10: the read-back never raises (it is a total function over the three
file states) and never returns an empty list: with at least one nameserver
line it returns the extracted addresses in file order; with a readable file
bearing no nameserver line, a missing file, or an unreadable file it returns
a one-element descriptive sentinel; consequently verifying any non-empty
list of real (validate-produced) addresses against such a file reports
mismatch. -/
theorem C10_get_current_dns_never_empty :
    (∀ f, get_current_dns f ≠ []) ∧
    (∀ ls, (ls.filterMap nameserverEntry? ≠ [] →
        get_current_dns (FileRead.lines ls) = ls.filterMap nameserverEntry?) ∧
      (ls.filterMap nameserverEntry? = [] →
        get_current_dns (FileRead.lines ls) = [emptySentinel])) ∧
    get_current_dns FileRead.missing = [missingSentinel] ∧
    (∀ msg, get_current_dns (FileRead.unreadable msg) = ["Error: " ++ msg]) ∧
    (∀ expected f, expected ≠ [] →
      (∀ ip ∈ expected, ∃ s, validate_ip s = some ip) →
      (f = FileRead.missing ∨ (∃ msg, f = FileRead.unreadable msg) ∨
        (∃ ls, f = FileRead.lines ls ∧ ls.filterMap nameserverEntry? = [])) →
      (verify_dns_change expected f).1 = false) := by
  refine ⟨?_, ?_, rfl, fun msg => rfl, ?_⟩
  · intro f
    cases f with
    | lines ls =>
      simp only [get_current_dns]
      split_ifs with hemp
      · simp
      · intro hnil
        rw [hnil] at hemp
        simp at hemp
    | missing => simp [get_current_dns]
    | unreadable msg => simp [get_current_dns]
  · intro ls
    constructor
    · intro hne
      simp only [get_current_dns]
      rw [if_neg (by simpa using hne)]
    · intro hnil
      simp only [get_current_dns]
      rw [if_pos (by simpa using hnil)]
  · intro expected f hne hvalid hcase
    have hsent : ∃ sent, get_current_dns f = [sent] ∧
        (sent = emptySentinel ∨ sent = missingSentinel ∨
          ∃ msg, sent = "Error: " ++ msg) := by
      rcases hcase with hf | ⟨msg, hf⟩ | ⟨ls, hf, hemp⟩
      · exact ⟨missingSentinel, by rw [hf]; rfl, Or.inr (Or.inl rfl)⟩
      · exact ⟨"Error: " ++ msg, by rw [hf]; rfl, Or.inr (Or.inr ⟨msg, rfl⟩)⟩
      · refine ⟨emptySentinel, ?_, Or.inl rfl⟩
        rw [hf]
        simp only [get_current_dns]
        rw [if_pos (by simpa using hemp)]
    obtain ⟨sent, hcur, hsentform⟩ := hsent
    rcases expected with _ | ⟨ip, rest⟩
    · exact absurd rfl hne
    obtain ⟨s, hs⟩ := hvalid ip (List.mem_cons_self ip rest)
    obtain ⟨hs1, hs2, hs3⟩ := validate_output_ne_sentinels s ip hs
    have hipsent : ip ≠ sent := by
      rcases hsentform with hf | hf | ⟨msg, hf⟩
      · rw [hf]; exact hs1
      · rw [hf]; exact hs2
      · rw [hf]; exact hs3 msg
    simp only [verify_dns_change, hcur]
    split_ifs with hall
    · exfalso
      have := List.all_eq_true.mp hall ip (List.mem_cons_self ip rest)
      have hmem : ip ∈ [sent] := List.elem_iff.mp this
      simp at hmem
      exact hipsent hmem
    · rfl

/-- C10 witness: a non-empty expected list of validated addresses against a
resolver file with no nameserver line reports mismatch. -/
theorem C10_get_current_dns_never_empty_witness :
    (verify_dns_change ["8.8.8.8"] (FileRead.lines ["# kosong"])).1 = false :=
  C10_get_current_dns_never_empty.2.2.2.2 ["8.8.8.8"] (FileRead.lines ["# kosong"])
    (by decide)
    (fun ip hip => by
      have hip' : ip = "8.8.8.8" := by simpa using hip
      exact ⟨"8.8.8.8", by rw [hip']; decide⟩)
    (Or.inr (Or.inr ⟨["# kosong"], rfl, by decide⟩))

end KaliDNS
